import Mathlib

/-!
Shallow embedding of the panda-voting spider (src/extractor.py, src/spider.py,
src/middlewares.py) and proofs about its extraction, hash-derivation and
orchestration behaviour.

Python exceptions are modelled with `Except PyError`; Python strings with
`String`, byte strings with `List Nat` (each entry below 256); `dict` values
parsed from JSON with association lists where the last binding of a key wins,
exactly as repeated JSON keys behave in `json.loads`.
-/

set_option autoImplicit false

/-- Python exception values raised by the source: `ValueError(args...)` and the
`KeyError` raised by a failed `dict` subscript. -/
inductive PyError where
  | valueError (args : List String)
  | keyError (key : String)
deriving DecidableEq, Repr

/-! ## Python string primitives, re-implemented structurally -/

/-- Accumulator loop of `pySplitChar`. -/
def pySplitCharAux (sep : Char) : List Char → List Char → List (List Char)
  | [], acc => [acc.reverse]
  | c :: rest, acc =>
    if c = sep then acc.reverse :: pySplitCharAux sep rest []
    else pySplitCharAux sep rest (c :: acc)

/-- Python `s.split(sep)` for a one-character separator: keeps empty pieces,
and `"".split(sep)` is `[""]`. -/
def pySplit (s : String) (sep : Char) : List String :=
  (pySplitCharAux sep s.data []).map (fun l => String.mk l)

/-- Python `s.startswith(pre)`. -/
def pyStartsWith (s pre : String) : Bool :=
  pre.data.isPrefixOf s.data

/-- Check whether `pat` occurs as a contiguous sublist of `l`; this is the
Python `pat in text` substring test. -/
def containsSub (pat : List Char) : List Char → Bool
  | [] => pat.isEmpty
  | c :: rest => pat.isPrefixOf (c :: rest) || containsSub pat rest

/-- Python `pat in text` on strings. -/
def pyContains (text pat : String) : Bool :=
  containsSub pat.data text.data

/-- Python `sep.join(parts)`. -/
def pyJoin (sep : String) : List String → String
  | [] => ""
  | p :: ps => ps.foldl (fun acc q => acc ++ sep ++ q) p

/-- Decimal digit character for `n < 10`. -/
def digitChar (n : Nat) : Char := Char.ofNat (48 + n)

/-- Fuel-driven most-significant-first decimal digit accumulator. -/
def natDigitsAux : Nat → Nat → List Char → List Char
  | 0, _, acc => acc
  | fuel + 1, n, acc =>
    let d := digitChar (n % 10)
    if n < 10 then d :: acc else natDigitsAux fuel (n / 10) (d :: acc)

/-- Python `str(n)` for a non-negative integer. -/
def pyStrNat (n : Nat) : String := String.mk (natDigitsAux (n + 1) n [])

/-- Python `str(i)` for an integer. -/
def pyStrInt (i : Int) : String :=
  if i < 0 then "-" ++ pyStrNat (-i).toNat else pyStrNat i.toNat

/-! ## Generic helpers used to model Python iteration -/

/-- Left-to-right effectful map over `Except`, stopping at the first raised
exception exactly as a Python list comprehension does. -/
def mapExcept {α β : Type} (f : α → Except PyError β) : List α → Except PyError (List β)
  | [] => .ok []
  | a :: as =>
    match f a with
    | .error e => .error e
    | .ok b =>
      match mapExcept f as with
      | .error e => .error e
      | .ok bs => .ok (b :: bs)

/-- Left-to-right map over `Option`, used only to state theorems. -/
def mapOption {α β : Type} (f : α → Option β) : List α → Option (List β)
  | [] => some []
  | a :: as =>
    match f a, mapOption f as with
    | some b, some bs => some (b :: bs)
    | _, _ => none

/-- Python `dict` lookup for a dict built from an association list: the last
binding of a key wins, as with repeated keys in `json.loads`. -/
def dictGet (m : List (String × Int)) (k : String) : Option Int :=
  m.foldl (fun acc p => if p.1 = k then some p.2 else acc) none

/-- Python `dict` subscript `m[k]`, raising `KeyError(k)` when absent. -/
def dictGetExc (m : List (String × Int)) (k : String) : Except PyError Int :=
  match dictGet m k with
  | some v => .ok v
  | none => .error (.keyError k)

/-- First-match lookup in a string/string association list (HTML attributes,
form fields). -/
def listLookup (l : List (String × String)) (k : String) : Option String :=
  match l with
  | [] => none
  | p :: rest => if p.1 = k then some p.2 else listLookup rest k

/-! ## Base64 (Python `base64.b64encode`) -/

/-- The standard base64 alphabet. -/
def b64Alphabet : List Char :=
  "ABCDEFGHIJKLMNOPQRSTUVWXYZabcdefghijklmnopqrstuvwxyz0123456789+/".data

/-- Alphabet character of a sextet `n < 64`. -/
def sextetChar (n : Nat) : Char := b64Alphabet.getD n '='

/-- Position of a character in the base64 alphabet, if any. -/
def charSextet (c : Char) : Option Nat := b64Alphabet.findIdx? (fun d => d = c)

/-- RFC 4648 base64 encoding of a byte list, three bytes to four characters,
with `=` padding, as produced by Python `base64.b64encode`. -/
def b64EncodeBytes : List Nat → List Char
  | [] => []
  | [a] => [sextetChar (a / 4), sextetChar (a % 4 * 16), '=', '=']
  | [a, b] => [sextetChar (a / 4), sextetChar (a % 4 * 16 + b / 16), sextetChar (b % 16 * 4), '=']
  | a :: b :: c :: rest =>
    sextetChar (a / 4) :: sextetChar (a % 4 * 16 + b / 16) ::
      sextetChar (b % 16 * 4 + c / 64) :: sextetChar (c % 64) :: b64EncodeBytes rest

/-- Strict base64 decoding, the inverse of `b64EncodeBytes`. -/
def b64DecodeChars : List Char → Option (List Nat)
  | [] => some []
  | c1 :: c2 :: c3 :: c4 :: rest =>
    match charSextet c1, charSextet c2 with
    | some s1, some s2 =>
      if c3 = '=' then
        if c4 = '=' ∧ rest = [] ∧ s2 % 16 = 0 then some [s1 * 4 + s2 / 16] else none
      else
        match charSextet c3 with
        | some s3 =>
          if c4 = '=' then
            if rest = [] ∧ s3 % 4 = 0 then
              some [s1 * 4 + s2 / 16, s2 % 16 * 16 + s3 / 4]
            else none
          else
            match charSextet c4, b64DecodeChars rest with
            | some s4, some tail =>
              some ((s1 * 4 + s2 / 16) :: (s2 % 16 * 16 + s3 / 4) :: (s3 % 4 * 64 + s4) :: tail)
            | _, _ => none
        | none => none
    | _, _ => none
  | _ => none

/-- Base64 of a byte list as a Lean string. -/
def base64Encode (bs : List Nat) : String := String.mk (b64EncodeBytes bs)

/-- Base64 decoding of a Lean string to a byte list. -/
def base64Decode (s : String) : Option (List Nat) := b64DecodeChars s.data

/-! ## UTF-8 (Python `str.encode("utf-8")`) -/

/-- UTF-8 bytes of a single code point. -/
def utf8EncodeChar (c : Char) : List Nat :=
  if c.toNat < 0x80 then [c.toNat]
  else if c.toNat < 0x800 then [0xC0 + c.toNat / 64, 0x80 + c.toNat % 64]
  else if c.toNat < 0x10000 then
    [0xE0 + c.toNat / 4096, 0x80 + c.toNat / 64 % 64, 0x80 + c.toNat % 64]
  else
    [0xF0 + c.toNat / 262144, 0x80 + c.toNat / 4096 % 64, 0x80 + c.toNat / 64 % 64,
      0x80 + c.toNat % 64]

/-- UTF-8 bytes of a character list. -/
def utf8EncodeList : List Char → List Nat
  | [] => []
  | c :: cs => utf8EncodeChar c ++ utf8EncodeList cs

/-- Python `s.encode("utf-8")`. -/
def utf8Encode (s : String) : List Nat := utf8EncodeList s.data

/-! ## Round-trip lemmas for base64 and byte bounds for UTF-8 -/

theorem charSextet_sextetChar : ∀ n, n < 64 → charSextet (sextetChar n) = some n := by
  decide

theorem sextetChar_ne_pad : ∀ n, n < 64 → ¬sextetChar n = '=' := by
  decide

theorem b64_roundtrip :
    ∀ bs : List Nat, (∀ b ∈ bs, b < 256) → b64DecodeChars (b64EncodeBytes bs) = some bs
  | [], _ => rfl
  | [a], h => by
    have ha : a < 256 := h a (by simp)
    have e1 := charSextet_sextetChar (a / 4) (by omega)
    have e2 := charSextet_sextetChar (a % 4 * 16) (by omega)
    simp only [b64EncodeBytes, b64DecodeChars, e1, e2]
    have : a % 4 * 16 % 16 = 0 := by omega
    simp [this]
    omega
  | [a, b], h => by
    have ha : a < 256 := h a (by simp)
    have hb : b < 256 := h b (by simp)
    have e1 := charSextet_sextetChar (a / 4) (by omega)
    have e2 := charSextet_sextetChar (a % 4 * 16 + b / 16) (by omega)
    have e3 := charSextet_sextetChar (b % 16 * 4) (by omega)
    have n3 := sextetChar_ne_pad (b % 16 * 4) (by omega)
    simp only [b64EncodeBytes, b64DecodeChars, e1, e2, e3]
    rw [if_neg n3]
    have : b % 16 * 4 % 4 = 0 := by omega
    simp [this]
    constructor <;> omega
  | a :: b :: c :: rest, h => by
    have ha : a < 256 := h a (by simp)
    have hb : b < 256 := h b (by simp)
    have hc : c < 256 := h c (by simp)
    have ih := b64_roundtrip rest (fun x hx => h x (by simp [hx]))
    have e1 := charSextet_sextetChar (a / 4) (by omega)
    have e2 := charSextet_sextetChar (a % 4 * 16 + b / 16) (by omega)
    have e3 := charSextet_sextetChar (b % 16 * 4 + c / 64) (by omega)
    have e4 := charSextet_sextetChar (c % 64) (by omega)
    have n3 := sextetChar_ne_pad (b % 16 * 4 + c / 64) (by omega)
    have n4 := sextetChar_ne_pad (c % 64) (by omega)
    simp only [b64EncodeBytes, b64DecodeChars, e1, e2, e3, e4, ih]
    rw [if_neg n3, if_neg n4]
    simp
    refine ⟨by omega, by omega, by omega⟩

theorem base64_decode_encode (bs : List Nat) (h : ∀ b ∈ bs, b < 256) :
    base64Decode (base64Encode bs) = some bs :=
  b64_roundtrip bs h

theorem char_toNat_lt (c : Char) : c.toNat < 0x110000 := by
  have h := c.valid
  rcases h with h | ⟨_, h2⟩
  · exact Nat.lt_trans h (by decide)
  · exact h2

theorem utf8EncodeChar_lt (c : Char) : ∀ b ∈ utf8EncodeChar c, b < 256 := by
  have hv := char_toNat_lt c
  intro b hb
  unfold utf8EncodeChar at hb
  split at hb
  · simp at hb; omega
  · split at hb
    · simp at hb; rcases hb with hb | hb <;> omega
    · split at hb
      · simp at hb; rcases hb with hb | hb | hb <;> omega
      · simp at hb; rcases hb with hb | hb | hb | hb <;> omega

theorem utf8EncodeList_lt : ∀ l : List Char, ∀ b ∈ utf8EncodeList l, b < 256 := by
  intro l
  induction l with
  | nil => intro b hb; simp [utf8EncodeList] at hb
  | cons c cs ih =>
    intro b hb
    simp only [utf8EncodeList, List.mem_append] at hb
    rcases hb with hb | hb
    · exact utf8EncodeChar_lt c b hb
    · exact ih b hb

theorem utf8Encode_lt (s : String) : ∀ b ∈ utf8Encode s, b < 256 :=
  utf8EncodeList_lt s.data

theorem base64_decode_encode_utf8 (s : String) :
    base64Decode (base64Encode (utf8Encode s)) = some (utf8Encode s) :=
  base64_decode_encode (utf8Encode s) (utf8Encode_lt s)

/-! ## Model of the bounded regex extractions

All three script extractions in `extractor.py` use patterns of the shape
`(?<=LITERAL).*?(?=T)` with `re.search`: scan for the first position whose
preceding text equals the literal prefix and from which a terminator `T` is
reachable without crossing a newline (`.` does not match newlines); the lazy
`.*?` yields the shortest such stretch. -/

/-- Shortest stretch of non-newline characters up to (excluding) `term`;
`none` when a newline or the end of input comes first. -/
def matchUpTo (term : Char) : List Char → Option (List Char)
  | [] => none
  | c :: rest =>
    if c = term then some []
    else if c = '\n' then none
    else (matchUpTo term rest).map (fun m => c :: m)

/-- Scan for the first occurrence of `pre` from which `matchUpTo term`
succeeds, returning that match. -/
def reSearchAux (pre : List Char) (term : Char) : List Char → Option (List Char)
  | [] => none
  | c :: rest =>
    if pre.isPrefixOf (c :: rest) then
      match matchUpTo term (List.drop pre.length (c :: rest)) with
      | some m => some m
      | none => reSearchAux pre term rest
    else reSearchAux pre term rest

/-- Python `re.search("(?<=pre).*?(?=term)", text)`, returning the matched
text. -/
def reSearchLazy (pre : String) (term : Char) (text : String) : Option String :=
  (reSearchAux pre.data term text.data).map (fun l => String.mk l)

/-! ## Model of `json.loads`, specialised to the two literal shapes that
occur in `hastorni.js`: an array of integers and an object mapping strings
to integers. Escape sequences in keys and non-integer JSON values are not
modelled: on those the parsers return `none`. -/

/-- JSON insignificant whitespace. -/
def jsonWs (c : Char) : Bool := c = ' ' || c = '\t' || c = '\n' || c = '\r'

/-- Drop leading JSON whitespace. -/
def skipWs (l : List Char) : List Char := l.dropWhile jsonWs

/-- Numeric value of a list of decimal digits. -/
def digitsVal (ds : List Char) : Nat := ds.foldl (fun a c => a * 10 + (c.toNat - 48)) 0

/-- Parse a JSON natural number token (no leading zeros). -/
def parseJsonNatTok (l : List Char) : Option (Nat × List Char) :=
  match l.takeWhile Char.isDigit, l.dropWhile Char.isDigit with
  | [], _ => none
  | ['0'], rest => some (0, rest)
  | '0' :: _ :: _, _ => none
  | ds, rest => some (digitsVal ds, rest)

/-- Parse a JSON integer token with optional minus sign. -/
def parseJsonIntTok (l : List Char) : Option (Int × List Char) :=
  match l with
  | '-' :: r => (parseJsonNatTok r).map (fun p => (-(p.1 : Int), p.2))
  | _ => (parseJsonNatTok l).map (fun p => ((p.1 : Int), p.2))

/-- Body of a JSON string token after the opening quote; escape sequences and
control characters make the parse fail. -/
def parseJsonStringAux : List Char → List Char → Option (String × List Char)
  | [], _ => none
  | c :: rest, acc =>
    if c = '"' then some (String.mk acc.reverse, rest)
    else if c = '\\' then none
    else if c.toNat < 32 then none
    else parseJsonStringAux rest (c :: acc)

/-- Parse a JSON string token. -/
def parseJsonStringTok (l : List Char) : Option (String × List Char) :=
  match l with
  | '"' :: r => parseJsonStringAux r []
  | _ => none

/-- Comma-separated integers up to the closing bracket. -/
def parseIntItems : Nat → List Char → Option (List Int × List Char)
  | 0, _ => none
  | fuel + 1, l =>
    match parseJsonIntTok (skipWs l) with
    | none => none
    | some (i, rest) =>
      match skipWs rest with
      | ']' :: r => some ([i], r)
      | ',' :: r => (parseIntItems fuel r).map (fun p => (i :: p.1, p.2))
      | _ => none

/-- Python `json.loads` on a document expected to be an array of integers. -/
def jsonLoadsIntList (s : String) : Option (List Int) :=
  match skipWs s.data with
  | '[' :: r =>
    match skipWs r with
    | ']' :: r2 => if skipWs r2 = [] then some [] else none
    | r1 =>
      match parseIntItems (r1.length + 1) r1 with
      | some (is, rest) => if skipWs rest = [] then some is else none
      | none => none
  | _ => none

/-- Comma-separated `"key": int` pairs up to the closing brace. -/
def parseObjItems : Nat → List Char → Option (List (String × Int) × List Char)
  | 0, _ => none
  | fuel + 1, l =>
    match parseJsonStringTok (skipWs l) with
    | none => none
    | some (k, rest) =>
      match skipWs rest with
      | ':' :: r =>
        match parseJsonIntTok (skipWs r) with
        | none => none
        | some (v, r2) =>
          match skipWs r2 with
          | '}' :: r3 => some ([(k, v)], r3)
          | ',' :: r3 => (parseObjItems fuel r3).map (fun p => ((k, v) :: p.1, p.2))
          | _ => none
      | _ => none

/-- Python `json.loads` on a document expected to be an object mapping
strings to integers; bindings are kept in document order, `dictGet` gives
later duplicates precedence exactly as `json.loads` does. -/
def jsonLoadsStrIntObj (s : String) : Option (List (String × Int)) :=
  match skipWs s.data with
  | '{' :: r =>
    match skipWs r with
    | '}' :: r2 => if skipWs r2 = [] then some [] else none
    | r1 =>
      match parseObjItems (r1.length + 1) r1 with
      | some (m, rest) => if skipWs rest = [] then some m else none
      | none => none
  | _ => none

/-! ## The scrapy selection model used by `Parser.VotingPage`

A parsed HTML element carries its attribute dict. `response.css(sel)` in
scrapy delegates to parsel and returns a `SelectorList` of the matching
elements; it returns an empty list, never `None`, when nothing matches, and
`SelectorList.attrib` is the attribute dict of the first matched element or
the empty dict for an empty selection. -/

/-- An HTML element, reduced to its attributes. -/
structure Element where
  attrs : List (String × String)
deriving DecidableEq, Repr

/-- Model of the Python `is None` test applied to a `SelectorList`: a list
object is never `None`, so the test is constantly false. -/
def selectionIsNone (_ : List Element) : Bool := false

/-- Model of `SelectorList.attrib`: attributes of the first matched element,
or the empty dict when the selection is empty. -/
def selectionAttrib (sel : List Element) : List (String × String) :=
  match sel with
  | [] => []
  | e :: _ => e.attrs

namespace Parser

namespace VotingPage

/-- Model of `Parser.VotingPage.get_carnivore_value`. The argument is the
selection returned by `response.css("#carnivoreatingbambu input")`. The
source tests `input_element is None` and then reads
`input_element.attrib.get("value")`. -/
def get_carnivore_value (carnivore_selection : List Element) : Except PyError String :=
  if selectionIsNone carnivore_selection then
    .error (.valueError
      ["Input element with id \x27carnivoreatingbambu\x27 not found in the response."])
  else
    match listLookup (selectionAttrib carnivore_selection) "value" with
    | none => .error (.valueError ["Value attribute not found in the input element."])
    | some v => .ok v

end VotingPage

namespace HastorniJsFile

/-- Model of `Parser.HastorniJsFile.get_daxiongmao_file_url` before the final
`response.urljoin`: `ua` is the request user-agent header, `os` the platform
name from `response.meta`, `carnivore_value` the stage-1 token from
`response.meta`. The source base64-encodes the UTF-8 bytes of the f-string
`ua` ++ `ursidae_name` ++ `os` and splices it into the endpoint f-string. -/
def get_daxiongmao_file_url (ua ursidae_name os carnivore_value : String) : String :=
  "/daxiongmao.js?" ++ carnivore_value ++ "=" ++
    base64Encode (utf8Encode (ua ++ ursidae_name ++ os)) ++ "&key=aadfa"

/-- Model of `Parser.HastorniJsFile._get_letters_map`: regex extraction
`(?<=kretzoi = ).*?(?=;)` over the response text followed by `json.loads`. -/
def _get_letters_map (response_text : String) : Except PyError (List (String × Int)) :=
  match reSearchLazy "kretzoi = " ';' response_text with
  | none => .error (.valueError ["Map not found in the response."])
  | some map_str =>
    match jsonLoadsStrIntObj map_str with
    | none => .error (.valueError ["Error decoding map"])
    | some map_ => .ok map_

/-- Model of `Parser.HastorniJsFile.get_rats_hash`: `response_text` is
`response.text` and `group_name` is `response.meta["group"]["name"]`. Each
letter of the group name is looked up in the letters map (a plain `dict`
subscript, raising `KeyError` for an absent letter), the decimal renderings
are joined with a pipe and the UTF-8 bytes of the result base64-encoded. -/
def get_rats_hash (response_text group_name : String) : Except PyError String :=
  match _get_letters_map response_text with
  | .error e => .error e
  | .ok letters_map =>
    match mapExcept
        (fun letter => Except.map pyStrInt (dictGetExc letters_map (String.singleton letter)))
        group_name.data with
    | .error e => .error e
    | .ok group_name_numbers =>
      .ok (base64Encode (utf8Encode (pyJoin "|" group_name_numbers)))

/-- Model of Python `chr`: valid for code points in `range(0x110000)` and a
`ValueError` outside it. Surrogate code points, which Python accepts but a
Lean `Char` cannot represent, are mapped by `Char.ofNat` to the null
character. -/
def chr (i : Int) : Except PyError Char :=
  if 0 ≤ i ∧ i < 0x110000 then .ok (Char.ofNat i.toNat)
  else .error (.valueError ["chr() arg not in range(0x110000)"])

/-- Model of `Parser.HastorniJsFile._convert_char_codes_to_str`. The source
catches only `TypeError` (non-integer elements, unreachable once
`json.loads` produced an integer array); a `ValueError` from `chr`
propagates. -/
def _convert_char_codes_to_str (char_codes : List Int) : Except PyError String :=
  match mapExcept chr char_codes with
  | .error e => .error e
  | .ok cs => .ok (String.mk cs)

/-- Model of `Parser.HastorniJsFile.get_ursidae_name`: regex extraction
`(?<=ursidae = ).*?(?=;)`, `json.loads` of the match as an integer array,
then conversion of the character codes to a string. -/
def get_ursidae_name (response_text : String) : Except PyError String :=
  match reSearchLazy "ursidae = " ';' response_text with
  | none => .error (.valueError ["Char codes for Ursidae name not found in response text."])
  | some char_codes_str =>
    match jsonLoadsIntList char_codes_str with
    | none => .error (.valueError ["Char codes string is not a valid JSON object."])
    | some char_codes => _convert_char_codes_to_str char_codes

end HastorniJsFile

namespace DaxiongmaoJsFile

/-- Model of `Parser.DaxiongmaoJsFile.get_rogue_racoons_hash`: regex
extraction `(?<=oons\" value=\").*?(?=\")` over the response text. -/
def get_rogue_racoons_hash (response_text : String) : Except PyError String :=
  match reSearchLazy "oons\" value=\"" '"' response_text with
  | none => .error (.valueError ["Rogue raccoons hash not found in response."])
  | some hash_ => .ok hash_

end DaxiongmaoJsFile

namespace Common

/-- Model of `Parser.Common.get_session_cookies`. The argument is the
`Set-Cookie` response header when present. The source splits the header on
every semicolon, takes the first piece that starts with `session=`, and
unpacks `piece.split("=")` into exactly two names; Python raises an
unpacking `ValueError` when the split yields any other number of pieces. -/
def get_session_cookies (set_cookie_header : Option String) :
    Except PyError (String × String) :=
  match set_cookie_header with
  | none => .error (.valueError ["No \x27Set-Cookie\x27 header found in the response."])
  | some cookies_str =>
    match (pySplit cookies_str ';').find? (fun cookie => pyStartsWith cookie "session=") with
    | none => .error (.valueError ["Session cookie not found in Set-Cookie."])
    | some session_cookie =>
      match pySplit session_cookie '=' with
      | [key, value] => .ok (key, value)
      | parts =>
        .error (.valueError
          [if parts.length > 2 then "too many values to unpack (expected 2)"
           else "not enough values to unpack (expected 2, got " ++
             pyStrNat parts.length ++ ")"])

end Common

end Parser

/-! ## The spider (src/spider.py)

Each scrapy callback of `VoteForPandas` is modelled as a function from the
data it reads off the response to the request it yields, with Python
exceptions as `Except PyError`. A yielded request records its URL, method,
callback, whether an errback was attached, the group threaded through
`meta`, the form data and the cookies passed along. -/

/-- A voting group as stored in `VoteForPandas.groups`. -/
structure VotingGroup where
  name : String
  vote : String
deriving DecidableEq, Repr

/-- The spider callbacks a request can name. -/
inductive Callback where
  | parse
  | parse_hastorni_js_file
  | parse_daxiongmao_js_file
  | parse_voting_result
deriving DecidableEq, Repr

/-- A request yielded by the spider. `hasErrback` is true exactly when the
source attaches `errback=self.handle_vote_failure`. -/
structure SpiderRequest where
  url : String
  method : String
  callback : Callback
  hasErrback : Bool
  group : VotingGroup
  formdata : List (String × String)
  cookies : List (String × String)
deriving DecidableEq, Repr

/-- Classification of a submission response that raised no exception. -/
inductive VoteOutcome where
  | accepted
  | electionClosed
deriving DecidableEq, Repr

namespace VoteForPandas

/-- The ballot form page URL of `VoteForPandas.form_page_url`. -/
def form_page_url : String :=
  "https://panda.belvo.io/?trial_key=A3F3D333452DF83D32A387F3FC3-GUBA"

/-- The submission URL hard-coded in `parse_daxiongmao_js_file`. -/
def voting_url : String :=
  "https://panda.belvo.io/ursidaecarinove_eating_bambu_must_die"

/-- Model of `response.urljoin` for the root-relative endpoints used by the
spider: resolution against the site origin. -/
def urljoin (endpoint : String) : String := "https://panda.belvo.io" ++ endpoint

/-- Model of `VoteForPandas.groups` as built in `__init__`: four
predetermined votes and a fifth decided by the caller-supplied
`final_decision` argument. -/
def groups (final_decision : String) : List VotingGroup :=
  [{ name := "bearfoot_bearitone", vote := "0" },
   { name := "bearium_bearon", vote := "0" },
   { name := "stupandas_bamboozle", vote := "1" },
   { name := "bearing_embearass_goosebeary", vote := "1" },
   { name := "beary_pawsitively_forbearance", vote := final_decision }]

/-- Model of `VoteForPandas.send_group_to_vote`: a fresh GET of the form
page carrying the group in `meta`, with the default callback `parse` and no
errback. -/
def send_group_to_vote (group : VotingGroup) : SpiderRequest :=
  { url := form_page_url, method := "GET", callback := .parse, hasErrback := false,
    group := group, formdata := [], cookies := [] }

/-- Model of `VoteForPandas.parse` (stage 1): extract the session cookie
from the `Set-Cookie` header and the carnivore token from the document, then
yield the `hastorni.js` request with the session cookie and no errback. -/
def parse (set_cookie_header : Option String) (carnivore_selection : List Element)
    (group : VotingGroup) : Except PyError SpiderRequest :=
  match Parser.Common.get_session_cookies set_cookie_header with
  | .error e => .error e
  | .ok kv =>
    match Parser.VotingPage.get_carnivore_value carnivore_selection with
    | .error e => .error e
    | .ok _carnivore_value =>
      .ok { url := urljoin "/hastorni.js", method := "GET",
            callback := .parse_hastorni_js_file, hasErrback := false, group := group,
            formdata := [], cookies := [(kv.1, kv.2)] }

/-- Model of `VoteForPandas.parse_hastorni_js_file` (stage 2): extract the
ursidae name, build the `daxiongmao.js` URL, derive the rats hash, and yield
the stage-3 request (no errback), threading group and rats hash in `meta`. -/
def parse_hastorni_js_file (response_text ua os carnivore_value : String) (group : VotingGroup) :
    Except PyError SpiderRequest :=
  match Parser.HastorniJsFile.get_ursidae_name response_text with
  | .error e => .error e
  | .ok ursidae_name =>
    match Parser.HastorniJsFile.get_rats_hash response_text group.name with
    | .error e => .error e
    | .ok _rats_hash =>
      .ok { url := urljoin (Parser.HastorniJsFile.get_daxiongmao_file_url
              ua ursidae_name os carnivore_value),
            method := "GET", callback := .parse_daxiongmao_js_file, hasErrback := false,
            group := group, formdata := [], cookies := [] }

/-- Model of `VoteForPandas.parse_daxiongmao_js_file` (stage 3): extract the
rogue-racoons hash and the rotated session cookie, then yield the final
form-encoded POST with callback `parse_voting_result` and
`errback=handle_vote_failure`; `rats_hash` is `response.meta["rats_hash"]`
carried over from stage 2. -/
def parse_daxiongmao_js_file (response_text : String) (set_cookie_header : Option String)
    (group : VotingGroup) (rats_hash : String) : Except PyError SpiderRequest :=
  match Parser.DaxiongmaoJsFile.get_rogue_racoons_hash response_text with
  | .error e => .error e
  | .ok rogue_racoons =>
    match Parser.Common.get_session_cookies set_cookie_header with
    | .error e => .error e
    | .ok kv =>
      .ok { url := voting_url, method := "POST", callback := .parse_voting_result,
            hasErrback := true, group := group,
            formdata := [("rogue_racoons", rogue_racoons), ("username", group.name),
                         ("survive", group.vote), ("rats", rats_hash)],
            cookies := [(kv.1, kv.2)] }

/-- Model of `VoteForPandas.parse_voting_result`. Writing the election
result to a file and logging are external side effects; `json.loads` on the
full response body is abstracted by the `json_loads_ok` predicate (the
stdlib parser succeeds or raises `json.JSONDecodeError`). The outcome
classifies the transaction end state. -/
def parse_voting_result (json_loads_ok : String → Bool) (response_text : String) :
    Except PyError VoteOutcome :=
  let has_vote_suceeded_msg := pyContains response_text "Thank you bea"
  let has_election_result_msg := pyContains response_text "pandas_future"
  let has_valid_response := has_vote_suceeded_msg || has_election_result_msg
  if !has_valid_response then
    .error (.valueError ["Response page not expected: ", response_text])
  else if has_election_result_msg then
    if json_loads_ok response_text then .ok .electionClosed
    else .error (.valueError ["Could not read election result: "])
  else .ok .accepted

/-- Model of `VoteForPandas.handle_vote_failure`: on a transport failure
of the final request, re-yield the whole transaction for the group stored
in the failed request meta. -/
def handle_vote_failure (group : VotingGroup) : SpiderRequest :=
  send_group_to_vote group

end VoteForPandas

/-! ## Claim C9: shape of the stage-3 URL -/

/-- C9: for every user agent, identity name, operating system and form
token, the stage-3 endpoint is exactly
`/daxiongmao.js?formToken=base64(ua ++ name ++ os)&key=aadfa`: the form
token is the query-parameter name, the identity hash is the base64 of the
UTF-8 bytes of the three inputs concatenated in that order with no
separator, and the constant `key=aadfa` parameter is always appended. -/
theorem claim_C9_daxiongmao_url (ua ursidae_name os carnivore_value : String) :
    Parser.HastorniJsFile.get_daxiongmao_file_url ua ursidae_name os carnivore_value =
      "/daxiongmao.js?" ++ carnivore_value ++ "=" ++
        base64Encode (utf8Encode (ua ++ ursidae_name ++ os)) ++ "&key=aadfa" ∧
    base64Decode (base64Encode (utf8Encode (ua ++ ursidae_name ++ os))) =
      some (utf8Encode (ua ++ ursidae_name ++ os)) :=
  ⟨rfl, base64_decode_encode_utf8 _⟩

/-! ## Claim C2: classification of the submission response -/

/-- C2: the submission response is classified by the two markers with the
election-results marker taking precedence: results marker present means the
whole body is JSON-parsed, giving `ElectionClosed` on success and the
result-parse `ValueError` on failure, regardless of the thank-you marker;
neither marker present is the unexpected-response `ValueError` carrying the
raw text; only the thank-you marker present is `Accepted`. -/
theorem claim_C2_result_classification (json_loads_ok : String → Bool) (text : String) :
    VoteForPandas.parse_voting_result json_loads_ok text =
      (if pyContains text "pandas_future" then
        (if json_loads_ok text then .ok .electionClosed
         else .error (.valueError ["Could not read election result: "]))
       else if pyContains text "Thank you bea" then .ok .accepted
       else .error (.valueError ["Response page not expected: ", text])) := by
  unfold VoteForPandas.parse_voting_result
  cases hp : pyContains text "pandas_future" <;>
    cases ht : pyContains text "Thank you bea" <;>
      simp [hp, ht]

/-! ## Claim C10: the vote string is forwarded unvalidated -/

/-- C10: the five stored votes are `0, 0, 1, 1` and the caller-supplied
`final_decision` string, and whatever string a group record carries as its
vote is placed verbatim in the `survive` field of the final submission,
with no validation against the enum of `"0"` and `"1"`. -/
theorem claim_C10_vote_forwarded_verbatim (final_decision response_text : String)
    (set_cookie_header : Option String) (g : VotingGroup) (rats_hash : String) :
    (VoteForPandas.groups final_decision).map VotingGroup.vote =
      ["0", "0", "1", "1", final_decision] ∧
    (VoteForPandas.parse_daxiongmao_js_file response_text set_cookie_header g rats_hash).map
        (fun r => listLookup r.formdata "survive") =
      (VoteForPandas.parse_daxiongmao_js_file response_text set_cookie_header g rats_hash).map
        (fun _ => some g.vote) := by
  refine ⟨rfl, ?_⟩
  cases hr : Parser.DaxiongmaoJsFile.get_rogue_racoons_hash response_text with
  | error e => simp [VoteForPandas.parse_daxiongmao_js_file, hr, Except.map]
  | ok rogue =>
    cases hs : Parser.Common.get_session_cookies set_cookie_header with
    | error e => simp [VoteForPandas.parse_daxiongmao_js_file, hr, hs, Except.map]
    | ok kv =>
      simp only [VoteForPandas.parse_daxiongmao_js_file, hr, hs]
      rfl

/-! ## Claim C5: the two stage-1 failure conditions are not distinguished -/

/-- C5 (code bug): `response.css` returns a `SelectorList`, never `None`,
so the element-not-found `ValueError` of `get_carnivore_value` is
unreachable; an empty selection falls through to `SelectorList.attrib`,
which is the empty dict, and raises the attribute-missing `ValueError`
instead. The last two conjuncts evaluate the two document shapes. -/
theorem claim_C5_carnivore_error_conflation :
    Parser.VotingPage.get_carnivore_value [] =
      .error (.valueError ["Value attribute not found in the input element."]) ∧
    (∀ sel : List Element, Parser.VotingPage.get_carnivore_value sel ≠
      .error (.valueError
        ["Input element with id \x27carnivoreatingbambu\x27 not found in the response."])) ∧
    Parser.VotingPage.get_carnivore_value [{ attrs := [("id", "inner_input")] }] =
      .error (.valueError ["Value attribute not found in the input element."]) ∧
    Parser.VotingPage.get_carnivore_value [{ attrs := [("value", "T1")] }] = .ok "T1" := by
  refine ⟨rfl, ?_, rfl, rfl⟩
  intro sel h
  unfold Parser.VotingPage.get_carnivore_value selectionIsNone at h
  simp only [Bool.false_eq_true, if_false] at h
  cases hl : listLookup (selectionAttrib sel) "value" with
  | none => rw [hl] at h; simp at h
  | some v => rw [hl] at h; simp at h

/-! ## Claim C4: session-cookie extraction -/

/-- C4 counterexample: for the header value `session=a=b; Path=/; HttpOnly`
the claimed split on the first `=` would give `("session", "a=b")`, but
`split("=")` yields three pieces and the two-name unpacking raises the
unpacking `ValueError` instead. -/
theorem claim_C4_counterexample :
    Parser.Common.get_session_cookies (some "session=a=b; Path=/; HttpOnly") =
      .error (.valueError ["too many values to unpack (expected 2)"]) ∧
    Parser.Common.get_session_cookies (some "session=a=b; Path=/; HttpOnly") ≠
      .ok ("session", "a=b") := by
  refine ⟨rfl, ?_⟩
  intro h
  rw [show Parser.Common.get_session_cookies (some "session=a=b; Path=/; HttpOnly") =
    .error (.valueError ["too many values to unpack (expected 2)"]) from rfl] at h
  exact Except.noConfusion h

/-- C4 amended: the first semicolon-separated piece that starts with
`session=` is split on every `=`; when that yields exactly the two pieces
name and value the pair is returned, in particular
`("session", "XYZ")` for `session=XYZ; Path=/; HttpOnly`; when no piece
starts with `session=` the session-cookie-absent `ValueError` is raised. -/
theorem claim_C4_amended :
    (∀ hdr : String,
      (pySplit hdr ';').find? (fun cookie => pyStartsWith cookie "session=") = none →
      Parser.Common.get_session_cookies (some hdr) =
        .error (.valueError ["Session cookie not found in Set-Cookie."])) ∧
    (∀ hdr piece name val : String,
      (pySplit hdr ';').find? (fun cookie => pyStartsWith cookie "session=") = some piece →
      pySplit piece '=' = [name, val] →
      Parser.Common.get_session_cookies (some hdr) = .ok (name, val)) ∧
    Parser.Common.get_session_cookies (some "session=XYZ; Path=/; HttpOnly") =
      .ok ("session", "XYZ") := by
  refine ⟨?_, ?_, rfl⟩
  · intro hdr h
    simp [Parser.Common.get_session_cookies, h]
  · intro hdr piece name val h1 h2
    simp [Parser.Common.get_session_cookies, h1, h2]

/-- C4 amended, witnessed: a header with only unrelated cookies raises the
session-cookie-absent error, and a well-formed session cookie is split into
its name and value. -/
theorem claim_C4_amended_witness :
    Parser.Common.get_session_cookies (some "foo=1; bar=2") =
      .error (.valueError ["Session cookie not found in Set-Cookie."]) ∧
    Parser.Common.get_session_cookies (some "session=QQ; Path=/") = .ok ("session", "QQ") :=
  ⟨claim_C4_amended.1 "foo=1; bar=2" rfl,
   claim_C4_amended.2.1 "session=QQ; Path=/" "session=QQ" "session" "QQ" rfl rfl⟩

/-! ## Claims C1 and C8: the rats-hash derivation -/

/-- When every letter of the scanned list has a binding, the exception-style
lookup map of `get_rats_hash` succeeds with the decimal renderings of the
bound values. -/
theorem mapExcept_lookup_ok (m : List (String × Int)) :
    ∀ (cs : List Char) (vals : List Int),
      mapOption (fun c => dictGet m (String.singleton c)) cs = some vals →
      mapExcept (fun c => Except.map pyStrInt (dictGetExc m (String.singleton c))) cs =
        .ok (vals.map pyStrInt) := by
  intro cs
  induction cs with
  | nil =>
    intro vals h
    simp only [mapOption, Option.some.injEq] at h
    subst h
    rfl
  | cons c rest ih =>
    intro vals h
    simp only [mapOption] at h
    cases hd : dictGet m (String.singleton c) with
    | none => rw [hd] at h; simp at h
    | some v =>
      rw [hd] at h
      cases ho : mapOption (fun c => dictGet m (String.singleton c)) rest with
      | none => rw [ho] at h; simp at h
      | some vs =>
        rw [ho] at h
        simp only [Option.some.injEq] at h
        subst h
        have hhead : Except.map pyStrInt (dictGetExc m (String.singleton c)) =
            .ok (pyStrInt v) := by
          simp [dictGetExc, hd, Except.map]
        simp only [mapExcept]
        rw [hhead, ih vs ho]
        rfl

/-- When some letter of the scanned list has no binding, the lookup map of
`get_rats_hash` raises the `KeyError` of the first such letter. -/
theorem mapExcept_lookup_keyError (m : List (String × Int)) :
    ∀ cs : List Char, (∃ c ∈ cs, dictGet m (String.singleton c) = none) →
      ∃ c, c ∈ cs ∧ dictGet m (String.singleton c) = none ∧
        mapExcept (fun c => Except.map pyStrInt (dictGetExc m (String.singleton c))) cs =
          .error (.keyError (String.singleton c)) := by
  intro cs
  induction cs with
  | nil => rintro ⟨c, hc, _⟩; cases hc
  | cons a rest ih =>
    rintro ⟨c, hc, hnone⟩
    cases hd : dictGet m (String.singleton a) with
    | none =>
      refine ⟨a, by simp, hd, ?_⟩
      have hhead : Except.map pyStrInt (dictGetExc m (String.singleton a)) =
          .error (.keyError (String.singleton a)) := by
        simp [dictGetExc, hd, Except.map]
      simp only [mapExcept]
      rw [hhead]
    | some v =>
      have hc' : c ∈ rest := by
        rcases List.mem_cons.mp hc with h | h
        · subst h; rw [hd] at hnone; cases hnone
        · exact h
      obtain ⟨c', hmem, hnone', heq⟩ := ih ⟨c, hc', hnone⟩
      refine ⟨c', by simp [hmem], hnone', ?_⟩
      have hhead : Except.map pyStrInt (dictGetExc m (String.singleton a)) =
          .ok (pyStrInt v) := by
        simp [dictGetExc, hd, Except.map]
      simp only [mapExcept]
      rw [hhead, heq]

/-- C1: for every response text whose letters map parses and every group
name all of whose letters the map binds, `get_rats_hash` returns the base64
string that decodes to the UTF-8 bytes of the bound decimal codes joined,
in name order, by the pipe character. -/
theorem claim_C1_rats_hash_decodes (response_text group_name : String)
    (letters_map : List (String × Int)) (vals : List Int)
    (hmap : Parser.HastorniJsFile._get_letters_map response_text = .ok letters_map)
    (hlook : mapOption (fun c => dictGet letters_map (String.singleton c)) group_name.data =
      some vals) :
    Parser.HastorniJsFile.get_rats_hash response_text group_name =
      .ok (base64Encode (utf8Encode (pyJoin "|" (vals.map pyStrInt)))) ∧
    base64Decode (base64Encode (utf8Encode (pyJoin "|" (vals.map pyStrInt)))) =
      some (utf8Encode (pyJoin "|" (vals.map pyStrInt))) := by
  constructor
  · simp only [Parser.HastorniJsFile.get_rats_hash, hmap]
    rw [mapExcept_lookup_ok letters_map group_name.data vals hlook]
  · exact base64_decode_encode_utf8 _

/-- C1, witnessed at the example of the claim: the name `AB` under the map
binding `A` to 5 and `B` to 7 hashes to `NXw3`, which decodes to the bytes
of `5|7`. -/
theorem claim_C1_witness :
    Parser.HastorniJsFile.get_rats_hash "kretzoi = \x7b\"A\": 5, \"B\": 7\x7d;" "AB" =
      .ok "NXw3" ∧
    base64Decode "NXw3" = some (utf8Encode "5|7") := by
  have h := claim_C1_rats_hash_decodes "kretzoi = \x7b\"A\": 5, \"B\": 7\x7d;" "AB"
    [("A", 5), ("B", 7)] [5, 7] rfl rfl
  exact ⟨h.1, h.2⟩

/-- C8: for every response text whose letters map parses and every group
name with a letter the map does not bind, `get_rats_hash` fails with the
`KeyError` naming such a letter. -/
theorem claim_C8_unknown_letter (response_text group_name : String)
    (letters_map : List (String × Int))
    (hmap : Parser.HastorniJsFile._get_letters_map response_text = .ok letters_map)
    (habs : ∃ c ∈ group_name.data, dictGet letters_map (String.singleton c) = none) :
    ∃ c, c ∈ group_name.data ∧ dictGet letters_map (String.singleton c) = none ∧
      Parser.HastorniJsFile.get_rats_hash response_text group_name =
        .error (.keyError (String.singleton c)) := by
  obtain ⟨c, hmem, hnone, heq⟩ := mapExcept_lookup_keyError letters_map group_name.data habs
  refine ⟨c, hmem, hnone, ?_⟩
  simp only [Parser.HastorniJsFile.get_rats_hash, hmap]
  rw [heq]

/-- C8, witnessed: with a map binding only `A`, hashing the name `AB` fails
with the `KeyError` of an unbound letter. -/
theorem claim_C8_witness :
    ∃ c, c ∈ "AB".data ∧ dictGet [("A", 5)] (String.singleton c) = none ∧
      Parser.HastorniJsFile.get_rats_hash "kretzoi = \x7b\"A\": 5\x7d;" "AB" =
        .error (.keyError (String.singleton c)) :=
  claim_C8_unknown_letter "kretzoi = \x7b\"A\": 5\x7d;" "AB" [("A", 5)] rfl
    ⟨'B', by decide, rfl⟩

/-! ## Claim C6: the ursidae name is the inverse of code-point encoding -/

/-- Valid code points survive the `Char.ofNat` round trip. -/
theorem toNat_ofNat_valid (n : Nat) (h : n.isValidChar) : (Char.ofNat n).toNat = n := by
  rw [Char.ofNat, dif_pos h]
  rfl

/-- Converting a list of valid non-negative codes with `chr` succeeds and
the produced characters carry exactly those codes. -/
theorem mapExcept_chr_ok (codes : List Int)
    (hv : ∀ i ∈ codes, 0 ≤ i ∧ Nat.isValidChar i.toNat) :
    ∃ cs : List Char, mapExcept Parser.HastorniJsFile.chr codes = .ok cs ∧
      cs.map (fun c => (c.toNat : Int)) = codes := by
  induction codes with
  | nil => exact ⟨[], rfl, rfl⟩
  | cons i rest ih =>
    obtain ⟨cs, h1, h2⟩ := ih (fun j hj => hv j (by simp [hj]))
    have hi := hv i (by simp)
    have hrange : 0 ≤ i ∧ i < 0x110000 := by
      rcases hi.2 with hlt | ⟨_, hlt⟩ <;> exact ⟨hi.1, by omega⟩
    have hhead : Parser.HastorniJsFile.chr i = .ok (Char.ofNat i.toNat) := by
      simp [Parser.HastorniJsFile.chr, hrange]
    refine ⟨Char.ofNat i.toNat :: cs, ?_, ?_⟩
    · simp only [mapExcept]
      rw [hhead, h1]
    · simp only [List.map_cons, h2, toNat_ofNat_valid i.toNat hi.2, List.cons.injEq]
      exact ⟨by omega, trivial⟩

/-- C6: for every script text from which the ursidae regex extracts a match
that parses as an integer array of valid non-negative code points,
`get_ursidae_name` returns the string whose code points are exactly those
integers in order. -/
theorem claim_C6_ursidae_inverse (response_text match_str : String) (codes : List Int)
    (hsearch : reSearchLazy "ursidae = " ';' response_text = some match_str)
    (hjson : jsonLoadsIntList match_str = some codes)
    (hvalid : ∀ i ∈ codes, 0 ≤ i ∧ Nat.isValidChar i.toNat) :
    ∃ out : String, Parser.HastorniJsFile.get_ursidae_name response_text = .ok out ∧
      out.data.map (fun c => (c.toNat : Int)) = codes := by
  obtain ⟨cs, h1, h2⟩ := mapExcept_chr_ok codes hvalid
  refine ⟨String.mk cs, ?_, h2⟩
  simp only [Parser.HastorniJsFile.get_ursidae_name,
    Parser.HastorniJsFile._convert_char_codes_to_str, hsearch, hjson]
  rw [h1]

/-- C6, witnessed at the example of the claim: the code list
`[124,124,98,101,97,114,124,124]` yields `||bear||`, and the code points of
the result are exactly the listed integers. -/
theorem claim_C6_witness :
    (∃ out : String,
      Parser.HastorniJsFile.get_ursidae_name "ursidae = [124,124,98,101,97,114,124,124];" =
        .ok out ∧
      out.data.map (fun c => (c.toNat : Int)) = [124, 124, 98, 101, 97, 114, 124, 124]) ∧
    Parser.HastorniJsFile.get_ursidae_name "ursidae = [124,124,98,101,97,114,124,124];" =
      .ok "||bear||" :=
  ⟨claim_C6_ursidae_inverse "ursidae = [124,124,98,101,97,114,124,124];"
      "[124,124,98,101,97,114,124,124]" [124, 124, 98, 101, 97, 114, 124, 124]
      rfl rfl (by decide), rfl⟩

/-! ## Claim C3: wire shape of the final submission -/

/-- C3: whenever a transaction reaches the submission stage — the stage-2
rats hash was derived, the stage-3 payload token extracted and the session
cookie read — the yielded request is a form-encoded POST whose body has
exactly the four fields `rogue_racoons` (the stage-3 payload token),
`username` (the group name), `survive` (the group vote) and `rats` (the
derived group hash), in that order and with exactly these values. -/
theorem claim_C3_final_submission_fields (stage2_text stage3_text : String)
    (set_cookie_header : Option String) (g : VotingGroup)
    (rats_hash rogue name val : String)
    (hrats : Parser.HastorniJsFile.get_rats_hash stage2_text g.name = .ok rats_hash)
    (htok : Parser.DaxiongmaoJsFile.get_rogue_racoons_hash stage3_text = .ok rogue)
    (hsess : Parser.Common.get_session_cookies set_cookie_header = .ok (name, val)) :
    VoteForPandas.parse_daxiongmao_js_file stage3_text set_cookie_header g rats_hash =
      .ok { url := VoteForPandas.voting_url, method := "POST",
            callback := .parse_voting_result, hasErrback := true, group := g,
            formdata := [("rogue_racoons", rogue), ("username", g.name),
                         ("survive", g.vote), ("rats", rats_hash)],
            cookies := [(name, val)] } := by
  simp only [VoteForPandas.parse_daxiongmao_js_file, htok, hsess]

/-- C3, witnessed on the end-to-end scenario of the spec: stage-2 map
`b,e,a,r` to `1,2,3,4`, payload token `H1`, session `XYZ`, group `bear`
voting `1`. -/
theorem claim_C3_witness :
    VoteForPandas.parse_daxiongmao_js_file
        "<input name=\"rogue_racoons\" value=\"H1\">"
        (some "session=XYZ; Path=/; HttpOnly")
        { name := "bear", vote := "1" } "MXwyfDN8NA==" =
      .ok { url := VoteForPandas.voting_url, method := "POST",
            callback := .parse_voting_result, hasErrback := true,
            group := { name := "bear", vote := "1" },
            formdata := [("rogue_racoons", "H1"), ("username", "bear"),
                         ("survive", "1"), ("rats", "MXwyfDN8NA==")],
            cookies := [("session", "XYZ")] } :=
  claim_C3_final_submission_fields
    "kretzoi = \x7b\"b\": 1, \"e\": 2, \"a\": 3, \"r\": 4\x7d;"
    "<input name=\"rogue_racoons\" value=\"H1\">"
    (some "session=XYZ; Path=/; HttpOnly")
    { name := "bear", vote := "1" } "MXwyfDN8NA==" "H1" "session" "XYZ" rfl rfl rfl

/-! ## Claim C7: only the final request retries, by restarting from Start -/

/-- C7: the failure handler attached to the final submission replays the
whole transaction: it yields exactly the `Start`-state request — a new GET
of the form page with the same group record (name and vote) and no errback
of its own — while the requests yielded for the three earlier stages carry
no errback at all, so transport failures there (like extraction errors,
which raise instead of yielding) are never retried; only the final
submission request carries the errback. -/
theorem claim_C7_retry_restarts_from_start (g : VotingGroup) (sc1 sc3 : Option String)
    (sel : List Element) (t2 ua os cv t3 rh : String) (r1 r2 r3 : SpiderRequest)
    (h1 : VoteForPandas.parse sc1 sel g = .ok r1)
    (h2 : VoteForPandas.parse_hastorni_js_file t2 ua os cv g = .ok r2)
    (h3 : VoteForPandas.parse_daxiongmao_js_file t3 sc3 g rh = .ok r3) :
    VoteForPandas.handle_vote_failure g = VoteForPandas.send_group_to_vote g ∧
    (VoteForPandas.send_group_to_vote g).url = VoteForPandas.form_page_url ∧
    (VoteForPandas.send_group_to_vote g).callback = .parse ∧
    (VoteForPandas.send_group_to_vote g).group = g ∧
    (VoteForPandas.send_group_to_vote g).hasErrback = false ∧
    r1.hasErrback = false ∧ r2.hasErrback = false ∧
    r3.hasErrback = true ∧ r3.callback = .parse_voting_result := by
  refine ⟨rfl, rfl, rfl, rfl, rfl, ?_, ?_, ?_, ?_⟩
  · unfold VoteForPandas.parse at h1
    cases hkv : Parser.Common.get_session_cookies sc1 with
    | error e => rw [hkv] at h1; simp at h1
    | ok kv =>
      rw [hkv] at h1
      cases hcv : Parser.VotingPage.get_carnivore_value sel with
      | error e => rw [hcv] at h1; simp at h1
      | ok v =>
        rw [hcv] at h1
        simp only [Except.ok.injEq] at h1
        subst h1
        rfl
  · unfold VoteForPandas.parse_hastorni_js_file at h2
    cases hu : Parser.HastorniJsFile.get_ursidae_name t2 with
    | error e => rw [hu] at h2; simp at h2
    | ok un =>
      rw [hu] at h2
      cases hrh : Parser.HastorniJsFile.get_rats_hash t2 g.name with
      | error e => rw [hrh] at h2; simp at h2
      | ok rhv =>
        rw [hrh] at h2
        simp only [Except.ok.injEq] at h2
        subst h2
        rfl
  all_goals
    unfold VoteForPandas.parse_daxiongmao_js_file at h3
    cases hro : Parser.DaxiongmaoJsFile.get_rogue_racoons_hash t3 with
    | error e => rw [hro] at h3; simp at h3
    | ok rogue =>
      rw [hro] at h3
      cases hsc : Parser.Common.get_session_cookies sc3 with
      | error e => rw [hsc] at h3; simp at h3
      | ok kv =>
        rw [hsc] at h3
        simp only [Except.ok.injEq] at h3
        subst h3
        rfl

/-- C7, witnessed: a concrete successful run of all three stage callbacks
for the group `bear`, instantiating every hypothesis. -/
theorem claim_C7_witness :
    VoteForPandas.handle_vote_failure { name := "bear", vote := "1" } =
      VoteForPandas.send_group_to_vote { name := "bear", vote := "1" } ∧
    (VoteForPandas.send_group_to_vote { name := "bear", vote := "1" }).url =
      VoteForPandas.form_page_url ∧
    (VoteForPandas.send_group_to_vote { name := "bear", vote := "1" }).callback = .parse ∧
    (VoteForPandas.send_group_to_vote { name := "bear", vote := "1" }).group =
      { name := "bear", vote := "1" } ∧
    (VoteForPandas.send_group_to_vote { name := "bear", vote := "1" }).hasErrback = false ∧
    SpiderRequest.hasErrback
      { url := VoteForPandas.urljoin "/hastorni.js", method := "GET",
        callback := .parse_hastorni_js_file, hasErrback := false,
        group := { name := "bear", vote := "1" }, formdata := [],
        cookies := [("session", "XYZ")] } = false ∧
    SpiderRequest.hasErrback
      { url := VoteForPandas.urljoin (Parser.HastorniJsFile.get_daxiongmao_file_url
          "UA" "bear" "OS" "T1"),
        method := "GET", callback := .parse_daxiongmao_js_file, hasErrback := false,
        group := { name := "bear", vote := "1" }, formdata := [], cookies := [] } = false ∧
    SpiderRequest.hasErrback
      { url := VoteForPandas.voting_url, method := "POST",
        callback := .parse_voting_result, hasErrback := true,
        group := { name := "bear", vote := "1" },
        formdata := [("rogue_racoons", "H1"), ("username", "bear"),
                     ("survive", "1"), ("rats", "MXwyfDN8NA==")],
        cookies := [("session", "XYZ")] } = true ∧
    SpiderRequest.callback
      { url := VoteForPandas.voting_url, method := "POST",
        callback := .parse_voting_result, hasErrback := true,
        group := { name := "bear", vote := "1" },
        formdata := [("rogue_racoons", "H1"), ("username", "bear"),
                     ("survive", "1"), ("rats", "MXwyfDN8NA==")],
        cookies := [("session", "XYZ")] } = .parse_voting_result :=
  claim_C7_retry_restarts_from_start { name := "bear", vote := "1" }
    (some "session=XYZ; Path=/; HttpOnly") (some "session=XYZ; Path=/; HttpOnly")
    [{ attrs := [("value", "T1")] }]
    "ursidae = [98, 101, 97, 114]; kretzoi = \x7b\"b\": 1, \"e\": 2, \"a\": 3, \"r\": 4\x7d;"
    "UA" "OS" "T1"
    "<input name=\"rogue_racoons\" value=\"H1\">" "MXwyfDN8NA=="
    _ _ _ rfl rfl rfl
